import Mathlib

/-!
Verification of the token-lifecycle and caching core of a Spotify proxy
backend.  The repository has three variants: a Node service (`server.js`)
and two Cloudflare-worker variants (`part_001`, `part_002`).  The Node
service keeps module-level mutable state `accessToken`, `tokenExpiresAt`,
`refreshToken`, `clientCredentialsToken`, `clientCredentialsExpiresAt`,
plus two `Map`-backed TTL caches.  We embed that state as explicit records
and each stateful function as a state-passing Lean function, with the
network response supplied as an argument.  JavaScript truthiness on the
relevant values (null / undefined / empty string / zero are falsy) is
modelled explicitly on `Option` values.
-/

namespace SpotifyProxy

/-- JavaScript truthiness of an optional string: `null`/`undefined` and the
empty string are falsy. -/
def jsTruthyS : Option String → Bool
  | none => false
  | some s => s != ""

/-- JavaScript truthiness of an optional number: `null`/`undefined` and `0`
are falsy.  (A `NaN` produced by arithmetic on a missing field is also falsy
and is modelled as `none`.) -/
def jsTruthyN : Option Int → Bool
  | none => false
  | some n => n != 0

/-- Response of `POST https://accounts.spotify.com/api/token` as consumed by
the code: HTTP ok flag plus the JSON fields read from the parsed body.
Absent fields are `none`. -/
structure TokenResp where
  ok : Bool
  access_token : Option String
  expires_in : Option Int
  refresh_token : Option String
  error : Option String
  error_description : Option String
  deriving Repr, DecidableEq

/-- Errors thrown by the token functions in `server.js`. -/
inductive JsError where
  /-- thrown when no refresh token is available -/
  | noRefreshToken : JsError
  /-- user-flow failure carrying `data.error` and `data.error_description` -/
  | authError (code desc : Option String) : JsError
  /-- client-credentials failure carrying only `data.error` -/
  | clientAuthError (code : Option String) : JsError
  /-- thrown as a generic refresh failure in the worker variants -/
  | workerRefreshFailed : JsError
  deriving Repr, DecidableEq

/-- The user-credential module state of `server.js`: `accessToken`,
`tokenExpiresAt`, `refreshToken` (lines 11-13). -/
structure UserState where
  accessToken : Option String
  tokenExpiresAt : Option Int
  refreshToken : Option String
  deriving Repr, DecidableEq

/-- The client-credential module state of `server.js`:
`clientCredentialsToken`, `clientCredentialsExpiresAt` (lines 16-17). -/
structure ClientState where
  clientCredentialsToken : Option String
  clientCredentialsExpiresAt : Option Int
  deriving Repr, DecidableEq

/-- Embedding of `refreshAccessToken` from `server.js` (lines 30-66).  Takes the current
state, the current time `now` (`Date.now()`), and the upstream response.
On `response.ok`, assigns `accessToken = data.access_token` (whatever it
is, possibly absent), `tokenExpiresAt = Date.now() + expires_in * 1000`
(absent `expires_in` yields `NaN`, modelled as `none`), and rotates
`refreshToken` only when `data.refresh_token` is truthy; otherwise throws
with the upstream `error` / `error_description` and leaves state intact. -/
def refreshAccessToken (st : UserState) (now : Int) (resp : TokenResp) :
    Except JsError (Option String) × UserState :=
  if ! jsTruthyS st.refreshToken then
    (Except.error JsError.noRefreshToken, st)
  else if resp.ok then
    let st' : UserState :=
      { accessToken := resp.access_token
        tokenExpiresAt := resp.expires_in.map (fun e => now + e * 1000)
        refreshToken :=
          if jsTruthyS resp.refresh_token then resp.refresh_token
          else st.refreshToken }
    (Except.ok st'.accessToken, st')
  else
    (Except.error (JsError.authError resp.error resp.error_description), st)

/-- The guard of `getValidAccessToken` (`server.js` lines 68-74), as the
condition under which the stored user credential is served with no network
call: `accessToken` truthy and NOT (`tokenExpiresAt` truthy and
`Date.now() >= tokenExpiresAt - 60000`). -/
def userCredValid (tok : Option String) (exp : Option Int) (now : Int) : Bool :=
  jsTruthyS tok && ! (jsTruthyN exp && decide (now ≥ exp.getD 0 - 60000))

/-- The guard of `getClientCredentialsToken` (`server.js` line 78):
credential served from store iff token truthy, expiry truthy, and
`Date.now() < clientCredentialsExpiresAt - 60000`. -/
def clientCredValid (tok : Option String) (exp : Option Int) (now : Int) : Bool :=
  jsTruthyS tok && jsTruthyN exp && decide (now < exp.getD 0 - 60000)

/-- Embedding of `getValidAccessToken` from `server.js` (lines 68-74), returning the
result, the new state, and whether a network token exchange was performed. -/
def getUserToken (st : UserState) (now : Int) (resp : TokenResp) :
    Except JsError (Option String) × UserState × Bool :=
  if userCredValid st.accessToken st.tokenExpiresAt now then
    (Except.ok st.accessToken, st, false)
  else
    let r := refreshAccessToken st now resp
    (r.1, r.2, true)

/-- Embedding of `getClientCredentialsToken` from `server.js` (lines 77-108): serve from
store when valid; otherwise exchange with `grant_type=client_credentials`;
on `response.ok` overwrite both fields, else throw carrying only
`data.error` and leave state intact. -/
def getClientCredentialsToken (st : ClientState) (now : Int) (resp : TokenResp) :
    Except JsError (Option String) × ClientState × Bool :=
  if clientCredValid st.clientCredentialsToken st.clientCredentialsExpiresAt now then
    (Except.ok st.clientCredentialsToken, st, false)
  else if resp.ok then
    let st' : ClientState :=
      { clientCredentialsToken := resp.access_token
        clientCredentialsExpiresAt := resp.expires_in.map (fun e => now + e * 1000) }
    (Except.ok st'.clientCredentialsToken, st', true)
  else
    (Except.error (JsError.clientAuthError resp.error), st, true)

/-- The validity formula as the spec words it (claim C2): valid iff
`accessToken` is present and `now < expiresAt - 60` seconds.  Presence of
the token is `Option.isSome`; an absent `expiresAt` makes the comparison
false. -/
def specCredValid (tok : Option String) (exp : Option Int) (now : Int) : Bool :=
  tok.isSome &&
    (match exp with
     | some e => decide (now < e - 60000)
     | none => false)

/-- Runs a sequence of sequential `getValidAccessToken` calls, each given by
its `Date.now()` value and the exchange response that would be received if
that call performed a network exchange.  Returns the per-call results
(result value, network-exchange flag) and the final state. -/
def runGetUserToken (st : UserState) :
    List (Int × TokenResp) → List (Except JsError (Option String) × Bool) × UserState
  | [] => ([], st)
  | (now, resp) :: rest =>
    let c := getUserToken st now resp
    let r := runGetUserToken c.2.1 rest
    ((c.1, c.2.2) :: r.1, r.2)

/-! ## Worker variants (`part_001`, `part_002`)

Both Cloudflare-worker variants keep `tokenCache = { accessToken,
tokenExpiresAt }` and a refresh token that is a configuration constant
(`env.REFRESH_TOKEN` in `part_001`, the hard-coded module constant in
`part_002`).  Their `refreshAccessToken` never writes any refresh token:
on success it assigns only `accessToken` and `tokenExpiresAt`. -/

/-- The worker `tokenCache` state (`part_002` lines 4-7). -/
structure WorkerState where
  accessToken : Option String
  tokenExpiresAt : Option Int
  deriving Repr, DecidableEq

/-- Form body of the token request a worker refresh builds (`part_002`
lines 24-28): `grant_type=refresh_token` with the configured
`REFRESH_TOKEN` constant, independent of the token-cache state. -/
structure TokenRequest where
  grant_type : String
  refresh_token : Option String
  deriving Repr, DecidableEq

/-- Request construction of the worker `refreshAccessToken` (`part_002`
lines 24-28, identically `part_001`): the refresh token sent upstream is
always the configured constant; the state contributes nothing. -/
def workerBuildRefreshRequest (REFRESH_TOKEN : String) (_st : WorkerState) :
    TokenRequest :=
  { grant_type := "refresh_token", refresh_token := some REFRESH_TOKEN }

/-- Worker `refreshAccessToken` (`part_002` lines 15-45, `part_001` lines
130-164): on `response.ok` assigns `tokenCache.accessToken` and
`tokenCache.tokenExpiresAt` only; otherwise throws
a generic error message leaving the cache intact. -/
def workerRefreshAccessToken (st : WorkerState) (now : Int) (resp : TokenResp) :
    Except JsError (Option String) × WorkerState :=
  if resp.ok then
    let st' : WorkerState :=
      { accessToken := resp.access_token
        tokenExpiresAt := resp.expires_in.map (fun e => now + e * 1000) }
    (Except.ok st'.accessToken, st')
  else
    (Except.error JsError.workerRefreshFailed, st)

/-- Request construction of the Node `refreshAccessToken` (`server.js`
lines 41-44): the refresh token sent upstream is the stored, rotatable
`refreshToken`. -/
def serverBuildRefreshRequest (st : UserState) : TokenRequest :=
  { grant_type := "refresh_token", refresh_token := st.refreshToken }

/-! ## TTL caches

`server.js` keeps two `Map`s: `searchCache` (TTL 120000 ms, sweep above
size 100) and `trackCache` (TTL 86400000 ms, sweep above size 200).  A
`Map` is embedded as an association list with unique keys; `Map.set`
replaces in place, `Map.get` returns the first (only) binding. -/

/-- A cache entry as stored by the handlers: `{ data, expiresAt }`. -/
structure CacheEntry (α : Type) where
  data : α
  expiresAt : Int
  deriving Repr, DecidableEq

/-- Embedding of `Map.set`: replace the existing binding in place, else append. -/
def mapSet {α : Type} (c : List (String × CacheEntry α)) (k : String)
    (e : CacheEntry α) : List (String × CacheEntry α) :=
  if c.any (fun p => p.1 == k) then
    c.map (fun p => if p.1 == k then (k, e) else p)
  else
    c ++ [(k, e)]

/-- Embedding of `Map.get`. -/
def mapGet {α : Type} (c : List (String × CacheEntry α)) (k : String) :
    Option (CacheEntry α) :=
  c.lookup k

/-- Embedding of the cache store step, with expiry now + ttl
(`server.js` lines 177-180 and 264-267). -/
def cachePut {α : Type} (c : List (String × CacheEntry α)) (k : String)
    (v : α) (ttl now : Int) : List (String × CacheEntry α) :=
  mapSet c k { data := v, expiresAt := now + ttl }

/-- The served value of a cache lookup (`server.js` lines 128-131 and
218-221): the stored `data` when an entry exists and `Date.now()` is
before its `expiresAt`, absent otherwise. -/
def cacheGetServed {α : Type} (c : List (String × CacheEntry α)) (k : String)
    (now : Int) : Option α :=
  match mapGet c k with
  | some e => if now < e.expiresAt then some e.data else none
  | none => none

/-- The cleanup sweep body (`server.js` lines 184-189 and 271-276):
delete every entry with `now >= expiresAt`, keep the rest untouched. -/
def cacheSweep {α : Type} (now : Int) (c : List (String × CacheEntry α)) :
    List (String × CacheEntry α) :=
  c.filter (fun p => decide (now < p.2.expiresAt))

/-- Insert followed by the opportunistic sweep (`server.js` lines 176-190
for `searchCache` with `cap = 100`, lines 263-277 for `trackCache` with
`cap = 200`): store the entry, then, if `size > cap`, sweep out the
already-expired entries. -/
def cachePutAndSweep {α : Type} (cap : Nat) (c : List (String × CacheEntry α))
    (k : String) (v : α) (ttl now : Int) : List (String × CacheEntry α) :=
  let c2 := cachePut c k v ttl now
  if c2.length > cap then cacheSweep now c2 else c2

/-- Constant `CACHE_TTL` (`server.js` line 21). -/
def CACHE_TTL : Int := 120000

/-- Constant `TRACK_CACHE_TTL` (`server.js` line 25). -/
def TRACK_CACHE_TTL : Int := 86400000

/-- The `searchCache` insert path of `/api/search`. -/
def searchCacheInsert {α : Type} (c : List (String × CacheEntry α))
    (k : String) (v : α) (now : Int) : List (String × CacheEntry α) :=
  cachePutAndSweep 100 c k v CACHE_TTL now

/-- The `trackCache` insert path of `/api/getTrack`. -/
def trackCacheInsert {α : Type} (c : List (String × CacheEntry α))
    (k : String) (v : α) (now : Int) : List (String × CacheEntry α) :=
  cachePutAndSweep 200 c k v TRACK_CACHE_TTL now

/-! ## Search limit and cache key (`/api/search`) -/

/-- Embedding of the fallback in `parseInt(limit) || 6`: the parse result is `none` for a missing or
non-numeric parameter (`NaN` — the destructuring default of 6 parses
to `6`, handled by the caller), and `0` is falsy, so both fall back to 6. -/
def jsOrSix : Option Int → Int
  | none => 6
  | some v => if v == 0 then 6 else v

/-- Embedding of `searchLimit = Math.min(Math.max(parseInt(limit) || 6, 1), 10)`
(`server.js` line 122, `part_001` line 270). -/
def searchLimit (parsed : Option Int) : Int :=
  min (max (jsOrSix parsed) 1) 10

/-- JavaScript `String.prototype.trim`: drop leading and trailing
whitespace (modelled on the character list so it is kernel-computable). -/
def jsTrim (s : String) : String :=
  ⟨((s.data.dropWhile Char.isWhitespace).reverse.dropWhile Char.isWhitespace).reverse⟩

/-- JavaScript `String.prototype.toLowerCase` (ASCII case folding,
modelled on the character list so it is kernel-computable). -/
def jsToLower (s : String) : String :=
  ⟨s.data.map Char.toLower⟩

/-- Query normalization used in the cache key: `q.trim().toLowerCase()`. -/
def normalizeQuery (q : String) : String :=
  jsToLower (jsTrim q)

/-- Embedding of the market fallback to the sentinel `none` (market is
absent or the raw query-string value; the empty string is falsy). -/
def marketOrNone : Option String → String
  | none => "none"
  | some m => if m == "" then "none" else m

/-- Cache-key construction of `/api/search` (`server.js` line 125):
`search:` + lowercased trimmed query + `:` + limit + `:` + market-or-none. -/
def cacheKey (q : String) (limit : Int) (market : Option String) : String :=
  "search:" ++ normalizeQuery q ++ ":" ++ toString limit ++ ":" ++ marketOrNone market

/-! ## `/api/now-playing` outcome classification -/

/-- Domain result of the now-playing handler, abstracting the reshaped
song payload. -/
inductive NowPlayingResult where
  /-- successful reply carrying isPlaying false and a message -/
  | notPlaying (message : String) : NowPlayingResult
  /-- thrown `Spotify API error` with the upstream status -/
  | upstreamError (status : Nat) : NowPlayingResult
  /-- reshaped currently-playing song payload -/
  | playing : NowPlayingResult
  deriving Repr, DecidableEq

/-- JavaScript `response.ok`: status in [200, 300). -/
def httpOk (status : Nat) : Bool :=
  decide (200 ≤ status) && decide (status < 300)

/-- The status dispatch of `/api/now-playing` (`server.js` lines 296-308):
204 and 404 mean "nothing playing"; other non-2xx throw; a 2xx body
without an `item` also means "nothing playing". -/
def nowPlayingOutcome (status : Nat) (hasItem : Bool) : NowPlayingResult :=
  if status == 204 || status == 404 then
    NowPlayingResult.notPlaying "No song currently playing"
  else if ! httpOk status then
    NowPlayingResult.upstreamError status
  else if ! hasItem then
    NowPlayingResult.notPlaying "No song currently playing"
  else
    NowPlayingResult.playing

/-! ## `/api/addTrack`: duplicate handling in the two variants -/

/-- Result of the playlist pre-read in `part_000`: HTTP ok flag and the
returned page of items, each holding the track id (or `none` when
`item.track` is null). -/
structure PlaylistCheck where
  ok : Bool
  items : List (Option String)
  deriving Repr, DecidableEq

/-- Outcome of an addTrack request restricted to what the claims observe:
whether the mutating upstream POST was issued and any early-reply status. -/
structure AddTrackOutcome where
  postIssued : Bool
  earlyStatus : Option Nat
  deriving Repr, DecidableEq

/-- The duplicate-check path of `POST /api/addTrack` in `part_000` (lines
624-657): read the playlist; when the read is ok and some returned item
has the requested track id, reply 409 without issuing the POST; otherwise
issue the POST. -/
def addTrack_part000 (check : PlaylistCheck) (trackId : String) : AddTrackOutcome :=
  if check.ok && check.items.any (fun t => t == some trackId) then
    { postIssued := false, earlyStatus := some 409 }
  else
    { postIssued := true, earlyStatus := none }

/-- Embedding of `POST /api/addTrack` in `server.js` (lines 500-567): no playlist read,
no duplicate check — the POST is issued unconditionally (for a valid
`track_id`); the playlist contents are never consulted. -/
def addTrack_server (_check : PlaylistCheck) (_trackId : String) : AddTrackOutcome :=
  { postIssued := true, earlyStatus := none }

/-! ## Cache lemmas -/

lemma lookup_mapSet_self {α : Type} (c : List (String × CacheEntry α))
    (k : String) (e : CacheEntry α) : mapGet (mapSet c k e) k = some e := by
  unfold mapGet mapSet
  by_cases h : c.any (fun p => p.1 == k)
  · rw [if_pos h]
    induction c with
    | nil => simp at h
    | cons p c ih =>
      simp only [List.any_cons, Bool.or_eq_true] at h
      by_cases hp : (p.1 == k) = true
      · rw [List.map_cons, if_pos hp]
        simp [List.lookup]
      · rw [List.map_cons, if_neg hp]
        have hp' : p.1 ≠ k := by simpa [beq_iff_eq] using hp
        have hk : (k == p.1) = false :=
          beq_eq_false_iff_ne.mpr (fun hkp => hp' hkp.symm)
        simp only [List.lookup, hk]
        rcases h with h | h
        · exact absurd h hp
        · exact ih h
  · rw [if_neg h]
    induction c with
    | nil => simp [List.lookup]
    | cons p c ih =>
      simp only [List.any_cons, Bool.or_eq_true, not_or] at h
      have hp' : p.1 ≠ k := by
        have := h.1
        simpa [beq_iff_eq] using this
      have hk : (k == p.1) = false :=
        beq_eq_false_iff_ne.mpr (fun hkp => hp' hkp.symm)
      simp only [List.cons_append, List.lookup, hk]
      exact ih h.2

lemma lookup_none_of_not_key {α : Type} (c : List (String × CacheEntry α))
    (k : String) (h : k ∉ c.map Prod.fst) : mapGet c k = none := by
  induction c with
  | nil => rfl
  | cons p c ih =>
    simp only [List.map_cons, List.mem_cons, not_or] at h
    have hk : (k == p.1) = false := by
      simp only [beq_eq_false_iff_ne]
      exact h.1
    simp only [mapGet, List.lookup, hk]
    exact ih h.2

lemma lookup_cacheSweep {α : Type} (now : Int) (c : List (String × CacheEntry α))
    (k : String) (hnd : (c.map Prod.fst).Nodup) :
    mapGet (cacheSweep now c) k =
      match mapGet c k with
      | some e => if now < e.expiresAt then some e else none
      | none => none := by
  induction c with
  | nil => rfl
  | cons p c ih =>
    simp only [List.map_cons, List.nodup_cons] at hnd
    by_cases hk : (k == p.1) = true
    · have hkk : k = p.1 := by simpa [beq_iff_eq] using hk
      by_cases hl : now < p.2.expiresAt
      · simp [cacheSweep, mapGet, List.lookup, hl, hk]
      · have hnone : mapGet (cacheSweep now c) k = none := by
          have hnot : k ∉ c.map Prod.fst := hkk ▸ hnd.1
          have hnot' : k ∉ (cacheSweep now c).map Prod.fst := by
            intro hmem
            apply hnot
            rcases List.mem_map.mp hmem with ⟨q, hq, hqk⟩
            exact List.mem_map.mpr ⟨q, List.mem_of_mem_filter hq, hqk⟩
          exact lookup_none_of_not_key _ _ hnot'
        have hdrop : cacheSweep now (p :: c) = cacheSweep now c := by
          simp [cacheSweep, List.filter_cons, hl]
        have hlook : mapGet (p :: c) k = some p.2 := by
          simp [mapGet, List.lookup, hk]
        rw [hdrop, hnone, hlook]
        simp [hl]
    · have step : mapGet (cacheSweep now (p :: c)) k = mapGet (cacheSweep now c) k := by
        simp only [cacheSweep, List.filter_cons]
        by_cases hl : now < p.2.expiresAt
        · simp [mapGet, List.lookup, hl, hk]
        · simp [hl]
      rw [step, ih hnd.2]
      simp [mapGet, List.lookup, hk]

lemma mapSet_keys_nodup {α : Type} (c : List (String × CacheEntry α))
    (k : String) (e : CacheEntry α) (hnd : (c.map Prod.fst).Nodup) :
    ((mapSet c k e).map Prod.fst).Nodup := by
  unfold mapSet
  by_cases h : c.any (fun p => p.1 == k)
  · simp only [h, if_true]
    have : (c.map (fun p => if p.1 == k then (k, e) else p)).map Prod.fst
        = c.map Prod.fst := by
      rw [List.map_map]
      apply List.map_congr_left
      intro p _
      by_cases hp : (p.1 == k) = true
      · have hpe : p.1 = k := by simpa [beq_iff_eq] using hp
        simp only [Function.comp_apply, if_pos hp]
        exact hpe.symm
      · simp only [Function.comp_apply, if_neg hp]
    rw [this]
    exact hnd
  · simp only [h, if_false]
    have hnot : k ∉ c.map Prod.fst := by
      intro hmem
      rcases List.mem_map.mp hmem with ⟨p, hp, hpk⟩
      have : c.any (fun p => p.1 == k) = true :=
        List.any_eq_true.mpr ⟨p, hp, by simp [hpk]⟩
      simp [this] at h
    simp [List.map_append, List.nodup_append, hnd, hnot]

lemma mapSet_length_ge {α : Type} (c : List (String × CacheEntry α))
    (k : String) (e : CacheEntry α) : c.length ≤ (mapSet c k e).length := by
  unfold mapSet
  by_cases h : c.any (fun p => p.1 == k) <;> simp [h]

lemma searchLimit_bounds (p : Option Int) :
    1 ≤ searchLimit p ∧ searchLimit p ≤ 10 := by
  unfold searchLimit
  exact ⟨le_min (le_max_right _ _) (by norm_num), min_le_right _ _⟩

lemma jsOrSix_of_ne_zero {v : Int} (hv : v ≠ 0) : jsOrSix (some v) = v := by
  simp [jsOrSix, hv]

/-- A concrete 101-entry cache used to instantiate the sweep theorem:
even-indexed entries are already expired at time 1000, odd-indexed ones
are live until 2000000. -/
def bigDemoCache : List (String × CacheEntry Nat) :=
  (List.range 101).map
    (fun i => (toString i, { data := i, expiresAt := if i % 2 == 0 then 0 else 2000000 }))

lemma runGetUserToken_all_valid (l : List (Int × TokenResp)) (st : UserState)
    (h : ∀ p ∈ l, userCredValid st.accessToken st.tokenExpiresAt p.1 = true) :
    runGetUserToken st l = (l.map (fun _ => (Except.ok st.accessToken, false)), st) := by
  induction l with
  | nil => rfl
  | cons p l ih =>
    obtain ⟨now, resp⟩ := p
    have hp : userCredValid st.accessToken st.tokenExpiresAt now = true := by
      simpa using h (now, resp) (by simp)
    have hrest : ∀ q ∈ l, userCredValid st.accessToken st.tokenExpiresAt q.1 = true :=
      fun q hq => h q (by simp [hq])
    have hstep : getUserToken st now resp = (Except.ok st.accessToken, st, false) := by
      simp [getUserToken, hp]
    have hunfold : runGetUserToken st ((now, resp) :: l) =
        (((getUserToken st now resp).1, (getUserToken st now resp).2.2) ::
            (runGetUserToken (getUserToken st now resp).2.1 l).1,
          (runGetUserToken (getUserToken st now resp).2.1 l).2) := rfl
    rw [hunfold, hstep, ih hrest]
    simp

lemma runGetUserToken_append (l1 l2 : List (Int × TokenResp)) (st : UserState) :
    runGetUserToken st (l1 ++ l2) =
      ((runGetUserToken st l1).1 ++ (runGetUserToken (runGetUserToken st l1).2 l2).1,
        (runGetUserToken (runGetUserToken st l1).2 l2).2) := by
  induction l1 generalizing st with
  | nil => rfl
  | cons p l1 ih =>
    obtain ⟨now, resp⟩ := p
    have h1 : runGetUserToken st (((now, resp) :: l1) ++ l2) =
        (((getUserToken st now resp).1, (getUserToken st now resp).2.2) ::
            (runGetUserToken (getUserToken st now resp).2.1 (l1 ++ l2)).1,
          (runGetUserToken (getUserToken st now resp).2.1 (l1 ++ l2)).2) := rfl
    have h2 : runGetUserToken st ((now, resp) :: l1) =
        (((getUserToken st now resp).1, (getUserToken st now resp).2.2) ::
            (runGetUserToken (getUserToken st now resp).2.1 l1).1,
          (runGetUserToken (getUserToken st now resp).2.1 l1).2) := rfl
    rw [h1, h2, ih]
    simp

lemma singleExchange_core
    (st0 : UserState) (now0 : Int) (resp0 : TokenResp)
    (rest : List (Int × TokenResp)) (t : String) (e : Int)
    (hinv : userCredValid st0.accessToken st0.tokenExpiresAt now0 = false)
    (hrt : jsTruthyS st0.refreshToken = true)
    (hok : resp0.ok = true)
    (hat : resp0.access_token = some t) (ht : t ≠ "")
    (hei : resp0.expires_in = some e)
    (hn0 : 0 ≤ now0) (he : 0 < e)
    (hrest : ∀ p ∈ rest, p.1 < now0 + e * 1000 - 60000) :
    (runGetUserToken st0 ((now0, resp0) :: rest)).1 =
      (Except.ok (some t), true) :: rest.map (fun _ => (Except.ok (some t), false)) := by
  set st1 : UserState :=
    { accessToken := some t
      tokenExpiresAt := some (now0 + e * 1000)
      refreshToken :=
        if jsTruthyS resp0.refresh_token then resp0.refresh_token
        else st0.refreshToken } with hst1
  have hstep : getUserToken st0 now0 resp0 = (Except.ok (some t), st1, true) := by
    simp [getUserToken, hinv, refreshAccessToken, hrt, hok, hat, hei, hst1]
  have hvalid : ∀ p ∈ rest,
      userCredValid st1.accessToken st1.tokenExpiresAt p.1 = true := by
    intro p hp
    have h1 : p.1 < now0 + e * 1000 - 60000 := hrest p hp
    have hE : ((now0 + e * 1000 : Int) != 0) = true := by
      simp only [bne_iff_ne, ne_eq]
      omega
    have hT : (t != "") = true := by simpa using ht
    have hd : decide (p.1 ≥ now0 + e * 1000 - 60000) = false := by
      simp only [decide_eq_false_iff_not]
      omega
    simp only [hst1, userCredValid, jsTruthyS, jsTruthyN, Option.getD_some,
      hT, hE, hd, Bool.and_false, Bool.not_false, Bool.and_true, Bool.true_and]
  have hunfold : runGetUserToken st0 ((now0, resp0) :: rest) =
      (((getUserToken st0 now0 resp0).1, (getUserToken st0 now0 resp0).2.2) ::
          (runGetUserToken (getUserToken st0 now0 resp0).2.1 rest).1,
        (runGetUserToken (getUserToken st0 now0 resp0).2.1 rest).2) := rfl
  rw [hunfold, hstep, runGetUserToken_all_valid rest st1 hvalid]

/-- Claim C5: for every cache instance, key `k`, value `v` and ttl, after
`put(k, v, ttl)` sets `expiresAt`, `get(k)` returns `v` at every time
`now < expiresAt` and returns absent at every time `now ≥ expiresAt`,
even though the entry still sits in the map (the served-value function
checks expiry on every read). -/
theorem cache_get_after_put {α : Type} (c : List (String × CacheEntry α))
    (k : String) (v : α) (ttl tput now : Int) :
    cacheGetServed (cachePut c k v ttl tput) k now =
      if now < tput + ttl then some v else none := by
  unfold cacheGetServed cachePut
  rw [lookup_mapSet_self]

/-- Claim C6: for every cache state whose entry count exceeds the capacity
(100 for the search cache, 200 for the track cache), the sweep triggered by
an insert removes every entry whose `expiresAt` has passed and no entry
whose `expiresAt` has not passed: every live entry of the post-insert map
is still present unchanged, every expired one is gone. -/
theorem cache_sweep_removes_exactly_expired {α : Type}
    (c : List (String × CacheEntry α)) (k : String) (v : α) (now : Int)
    (hnd : (c.map Prod.fst).Nodup) :
    (100 < c.length →
      ∀ kk, mapGet (searchCacheInsert c k v now) kk =
        match mapGet (cachePut c k v CACHE_TTL now) kk with
        | some e => if now < e.expiresAt then some e else none
        | none => none) ∧
    (200 < c.length →
      ∀ kk, mapGet (trackCacheInsert c k v now) kk =
        match mapGet (cachePut c k v TRACK_CACHE_TTL now) kk with
        | some e => if now < e.expiresAt then some e else none
        | none => none) := by
  constructor
  · intro hlen kk
    have h2 : 100 < (cachePut c k v CACHE_TTL now).length :=
      lt_of_lt_of_le hlen (mapSet_length_ge c k _)
    have hnd2 : ((cachePut c k v CACHE_TTL now).map Prod.fst).Nodup :=
      mapSet_keys_nodup c k _ hnd
    unfold searchCacheInsert cachePutAndSweep
    rw [if_pos h2]
    exact lookup_cacheSweep now _ kk hnd2
  · intro hlen kk
    have h2 : 200 < (cachePut c k v TRACK_CACHE_TTL now).length :=
      lt_of_lt_of_le hlen (mapSet_length_ge c k _)
    have hnd2 : ((cachePut c k v TRACK_CACHE_TTL now).map Prod.fst).Nodup :=
      mapSet_keys_nodup c k _ hnd
    unfold trackCacheInsert cachePutAndSweep
    rw [if_pos h2]
    exact lookup_cacheSweep now _ kk hnd2

theorem cache_sweep_removes_exactly_expired_witness :
    mapGet (searchCacheInsert bigDemoCache "newkey" 7 1000) "0" = none ∧
    mapGet (searchCacheInsert bigDemoCache "newkey" 7 1000) "1" =
      some { data := 1, expiresAt := 2000000 } := by
  have h := (cache_sweep_removes_exactly_expired bigDemoCache "newkey" 7 1000
    (by decide)).1 (by decide)
  exact ⟨by rw [h "0"]; decide, by rw [h "1"]; decide⟩

/-- Claim C9: whenever the upstream currently-playing call returns HTTP 204
or 404, the handler produces the successful domain result
`isPlaying = false` with message `No song currently playing`, not an
error. -/
theorem nowPlaying_204_404_is_not_playing (status : Nat) (hasItem : Bool)
    (h : status = 204 ∨ status = 404) :
    nowPlayingOutcome status hasItem =
      NowPlayingResult.notPlaying "No song currently playing" := by
  rcases h with h | h <;> subst h <;> rfl

theorem nowPlaying_204_404_is_not_playing_witness :
    nowPlayingOutcome 204 true =
      NowPlayingResult.notPlaying "No song currently playing" :=
  nowPlaying_204_404_is_not_playing 204 true (Or.inl rfl)

/-- Claim C10: the effective search limit is an integer in `[1, 10]`; a
missing or non-numeric (`none`) or zero parse result yields 6, a parsed
value below 1 (other than the zero already covered) yields 1, a parsed
value above 10 yields 10, and in-range values pass through. -/
theorem searchLimit_clamped (p : Option Int) (v : Int) :
    (1 ≤ searchLimit p ∧ searchLimit p ≤ 10) ∧
    searchLimit none = 6 ∧
    searchLimit (some 0) = 6 ∧
    (v < 1 → v ≠ 0 → searchLimit (some v) = 1) ∧
    (10 < v → searchLimit (some v) = 10) ∧
    (1 ≤ v → v ≤ 10 → searchLimit (some v) = v) := by
  refine ⟨searchLimit_bounds p, by decide, by decide, ?_, ?_, ?_⟩
  · intro hv hv0
    unfold searchLimit
    rw [jsOrSix_of_ne_zero hv0, Int.max_def, Int.min_def]
    split_ifs <;> omega
  · intro hv
    have hv0 : v ≠ 0 := by omega
    unfold searchLimit
    rw [jsOrSix_of_ne_zero hv0, Int.max_def, Int.min_def]
    split_ifs <;> omega
  · intro hv1 hv10
    have hv0 : v ≠ 0 := by omega
    unfold searchLimit
    rw [jsOrSix_of_ne_zero hv0, Int.max_def, Int.min_def]
    split_ifs <;> omega

theorem searchLimit_clamped_witness : searchLimit (some (-3)) = 1 :=
  (searchLimit_clamped (some (-3)) (-3)).2.2.2.1 (by decide) (by decide)

/-- Claim C1 fails as stated: a 2xx token response missing `access_token`
is not detected.  At this concrete input the prior credential is
overwritten (accessToken becomes absent) and the call reports success, so
neither "fails with an AuthError" nor "no stored credential state is
mutated" holds. -/
theorem token_failure_no_mutation_counterexample :
    refreshAccessToken
        { accessToken := some "old", tokenExpiresAt := some 1000000,
          refreshToken := some "rt" } 0
        { ok := true, access_token := none, expires_in := some 3600,
          refresh_token := none, error := none, error_description := none } =
      (Except.ok none,
        { accessToken := none, tokenExpiresAt := some 3600000,
          refreshToken := some "rt" }) ∧
    (some "old" : Option String) ≠ none := by
  exact ⟨rfl, by decide⟩

/-- Claim C1 (amended): for every token-exchange attempt that receives a
non-2xx response, the user flow fails with an error carrying the upstream
error code and description, the client flow with an error carrying the
code, and in both flows the stored credential state is returned exactly as
it was.  (A 2xx response missing `access_token` is instead treated as
success and overwrites the stored fields.) -/
theorem token_exchange_non2xx_fails_without_mutation
    (ust : UserState) (cst : ClientState) (now : Int) (resp : TokenResp)
    (hrt : jsTruthyS ust.refreshToken = true)
    (hcs : clientCredValid cst.clientCredentialsToken cst.clientCredentialsExpiresAt now = false)
    (hok : resp.ok = false) :
    refreshAccessToken ust now resp =
      (Except.error (JsError.authError resp.error resp.error_description), ust) ∧
    getClientCredentialsToken cst now resp =
      (Except.error (JsError.clientAuthError resp.error), cst, true) := by
  constructor
  · simp [refreshAccessToken, hrt, hok]
  · simp [getClientCredentialsToken, hcs, hok]

theorem token_exchange_non2xx_fails_without_mutation_witness :
    refreshAccessToken { accessToken := none, tokenExpiresAt := none, refreshToken := some "rt" } 0
        { ok := false, access_token := none, expires_in := none, refresh_token := none,
          error := some "invalid_grant", error_description := some "Refresh token revoked" } =
      (Except.error (JsError.authError (some "invalid_grant") (some "Refresh token revoked")),
        { accessToken := none, tokenExpiresAt := none, refreshToken := some "rt" }) :=
  (token_exchange_non2xx_fails_without_mutation
    { accessToken := none, tokenExpiresAt := none, refreshToken := some "rt" }
    { clientCredentialsToken := none, clientCredentialsExpiresAt := none } 0
    { ok := false, access_token := none, expires_in := none, refresh_token := none,
      error := some "invalid_grant", error_description := some "Refresh token revoked" }
    (by decide) (by decide) rfl).1

/-- Claim C2 fails as stated: a user credential holding an access token but
no `expiresAt` is served from store with no exchange (the guard
`tokenExpiresAt && ...` skips the expiry test on a falsy value), although
the claimed validity formula `accessToken present and now < expiresAt - 60s`
is false when `expiresAt` is absent. -/
theorem token_validity_counterexample :
    getUserToken
        { accessToken := some "t", tokenExpiresAt := none, refreshToken := some "rt" } 0
        { ok := true, access_token := none, expires_in := none, refresh_token := none,
          error := none, error_description := none } =
      (Except.ok (some "t"),
        { accessToken := some "t", tokenExpiresAt := none, refreshToken := some "rt" },
        false) ∧
    specCredValid (some "t") none 0 = false := by
  exact ⟨rfl, rfl⟩

/-- Claim C2 (amended): with "`accessToken` present" read as a non-empty
token and for stored credentials whose `expiresAt` is present and nonzero
(as every successful exchange establishes), both the user and the client
guard treat the credential as valid exactly when
`now < expiresAt - 60000`; the 59 s / 61 s boundary cases behave as
claimed.  A user credential with a token but absent `expiresAt` is served
from store, while the client guard treats it as invalid. -/
theorem token_validity_boundary (tok : Option String) (e now : Int) :
    (e ≠ 0 → userCredValid tok (some e) now =
      (jsTruthyS tok && decide (now < e - 60000))) ∧
    (e ≠ 0 → clientCredValid tok (some e) now =
      (jsTruthyS tok && decide (now < e - 60000))) ∧
    userCredValid tok none now = jsTruthyS tok ∧
    clientCredValid tok none now = false ∧
    (0 ≤ now → userCredValid tok (some (now + 59000)) now = false) ∧
    (0 ≤ now → clientCredValid tok (some (now + 59000)) now = false) ∧
    (0 ≤ now → userCredValid tok (some (now + 61000)) now = jsTruthyS tok) ∧
    (0 ≤ now → clientCredValid tok (some (now + 61000)) now = jsTruthyS tok) := by
  have hdec : ∀ a b : Int, decide (a ≥ b) = !decide (a < b) := by
    intro a b
    by_cases h : a < b
    · have h1 : decide (a ≥ b) = false := by
        simp only [decide_eq_false_iff_not]
        omega
      simp [h, h1]
    · have h1 : decide (a ≥ b) = true := by
        simp only [decide_eq_true_eq]
        omega
      simp [h, h1]
  refine ⟨?_, ?_, ?_, ?_, ?_, ?_, ?_, ?_⟩
  · intro he
    have hbe : (e != 0) = true := by simpa using he
    have h2 : decide ((now : Int) + 60000 < e) = decide (now < e - 60000) := by
      rw [decide_eq_decide]
      omega
    simp [userCredValid, jsTruthyN, hbe, hdec, h2]
  · intro he
    have hbe : (e != 0) = true := by simpa using he
    simp [clientCredValid, jsTruthyN, hbe]
  · simp [userCredValid, jsTruthyN]
  · simp [clientCredValid, jsTruthyN]
  · intro h0
    have hbe : ((now + 59000 : Int) != 0) = true := by
      simp only [bne_iff_ne, ne_eq]
      omega
    have hd : decide (now ≥ now + 59000 - 60000) = true := by
      simp only [decide_eq_true_eq]
      omega
    simp [userCredValid, jsTruthyN, hbe, hd]
  · intro h0
    have hd : decide (now < now + 59000 - 60000) = false := by
      simp only [decide_eq_false_iff_not]
      omega
    simp [clientCredValid, jsTruthyN, hd]
  · intro h0
    have hbe : ((now + 61000 : Int) != 0) = true := by
      simp only [bne_iff_ne, ne_eq]
      omega
    have hd : decide (now ≥ now + 61000 - 60000) = false := by
      simp only [decide_eq_false_iff_not]
      omega
    simp [userCredValid, jsTruthyN, hbe, hd]
  · intro h0
    have hbe : ((now + 61000 : Int) != 0) = true := by
      simp only [bne_iff_ne, ne_eq]
      omega
    have hd : decide (now < now + 61000 - 60000) = true := by
      simp only [decide_eq_true_eq]
      omega
    simp [clientCredValid, jsTruthyN, hbe, hd]

theorem token_validity_boundary_witness :
    userCredValid (some "t") (some 200000) 0 =
      (jsTruthyS (some "t") && decide ((0 : Int) < 200000 - 60000)) :=
  (token_validity_boundary (some "t") 200000 0).1 (by decide)

/-- Claim C4 fails as stated: in the worker deployment variants the refresh
token used by every exchange is the configured constant; a successful
response carrying a rotated `refresh_token` does not replace it, as the
next refresh request at this concrete input shows. -/
theorem refresh_rotation_counterexample :
    (workerRefreshAccessToken { accessToken := none, tokenExpiresAt := none } 0
        { ok := true, access_token := some "at", expires_in := some 3600,
          refresh_token := some "rotated", error := none, error_description := none }).1 =
      Except.ok (some "at") ∧
    (workerBuildRefreshRequest "configured"
        (workerRefreshAccessToken { accessToken := none, tokenExpiresAt := none } 0
          { ok := true, access_token := some "at", expires_in := some 3600,
            refresh_token := some "rotated", error := none,
            error_description := none }).2).refresh_token = some "configured" ∧
    ("configured" : String) ≠ "rotated" := by
  exact ⟨rfl, rfl, by decide⟩

/-- Claim C4 (amended): on every successful user-token exchange, the Node
variant overwrites `accessToken`/`expiresAt` (expiry = now + expires_in
seconds) and replaces the stored refresh token exactly when the response
carries a truthy one, keeping it otherwise; the worker variants overwrite
`accessToken`/`expiresAt` the same way but never rotate — their next
refresh request always carries the configured constant. -/
theorem refresh_success_overwrite_and_rotation
    (st : UserState) (wst : WorkerState) (now : Int) (resp : TokenResp) (cfg : String)
    (hrt : jsTruthyS st.refreshToken = true) (hok : resp.ok = true) :
    (refreshAccessToken st now resp).2.accessToken = resp.access_token ∧
    (refreshAccessToken st now resp).2.tokenExpiresAt =
      resp.expires_in.map (fun e => now + e * 1000) ∧
    (refreshAccessToken st now resp).2.refreshToken =
      (if jsTruthyS resp.refresh_token then resp.refresh_token else st.refreshToken) ∧
    (workerRefreshAccessToken wst now resp).2 =
      { accessToken := resp.access_token,
        tokenExpiresAt := resp.expires_in.map (fun e => now + e * 1000) } ∧
    workerBuildRefreshRequest cfg (workerRefreshAccessToken wst now resp).2 =
      { grant_type := "refresh_token", refresh_token := some cfg } := by
  refine ⟨?_, ?_, ?_, ?_, rfl⟩
  · simp [refreshAccessToken, hrt, hok]
  · simp [refreshAccessToken, hrt, hok]
  · simp [refreshAccessToken, hrt, hok]
  · simp [workerRefreshAccessToken, hok]

theorem refresh_success_overwrite_and_rotation_witness :
    (refreshAccessToken { accessToken := none, tokenExpiresAt := none, refreshToken := some "rt" } 0
        { ok := true, access_token := some "newat", expires_in := some 3600,
          refresh_token := some "newrt", error := none, error_description := none }).2.accessToken =
      some "newat" :=
  (refresh_success_overwrite_and_rotation
    { accessToken := none, tokenExpiresAt := none, refreshToken := some "rt" }
    { accessToken := none, tokenExpiresAt := none } 0
    { ok := true, access_token := some "newat", expires_in := some 3600,
      refresh_token := some "newrt", error := none, error_description := none }
    "cfg" (by decide) rfl).1

/-- Claim C7 fails as stated: the key construction is not injective over
(query, limit, market).  At this concrete input, a request with market
`none` (the literal string) and a request with no market at all produce
the same key, although the market parameters differ. -/
theorem cacheKey_injective_counterexample :
    cacheKey "ab" 6 (some "none") = cacheKey "ab" 6 none ∧
    (some "none" : Option String) ≠ none := by
  exact ⟨rfl, by decide⟩

/-- Claim C7 (amended): the key is deterministic — any two requests with
the same normalized (trimmed, lowercased) query text, same limit and same
market yield the same key, so queries differing only in case collide onto
one key — but it is not injective: an unset market collides with the
literal market string `none`, and a `:` inside the query text lets
distinct (query, limit, market) triples collide. -/
theorem cacheKey_deterministic_not_injective :
    (∀ q1 q2 : String, ∀ l : Int, ∀ m : Option String,
      normalizeQuery q1 = normalizeQuery q2 → cacheKey q1 l m = cacheKey q2 l m) ∧
    cacheKey "ab" 6 (some "NONE") ≠ cacheKey "ab" 6 none ∧
    cacheKey "ab:1" 2 (some "US") = cacheKey "ab" 1 (some "2:US") := by
  refine ⟨?_, by decide, by decide⟩
  intro q1 q2 l m h
  unfold cacheKey
  rw [h]

theorem cacheKey_deterministic_not_injective_witness :
    cacheKey "AB" 6 none = cacheKey "ab" 6 none :=
  (cacheKey_deterministic_not_injective).1 "AB" "ab" 6 none (by decide)

/-- Claim C8 fails as stated: the Node variant (`server.js`) has no
duplicate check — at this concrete input the requested track is already in
the playlist, yet the handler issues the mutating POST and returns no
conflict status. -/
theorem addTrack_duplicate_counterexample :
    addTrack_server { ok := true, items := [some "dup"] } "dup" =
      { postIssued := true, earlyStatus := none } ∧
    (some "dup") ∈ ({ ok := true, items := [some "dup"] } : PlaylistCheck).items := by
  exact ⟨rfl, by simp⟩

/-- Claim C8 (amended): in the `part_000` variant, when the playlist
pre-read succeeds and the requested track id appears among the returned
items, the request is rejected with status 409 and the mutating POST is
never issued; the `server.js` variant performs no duplicate check and
always issues the POST. -/
theorem addTrack_duplicate_handling (check : PlaylistCheck) (tid : String)
    (hok : check.ok = true) (hmem : (some tid) ∈ check.items) :
    addTrack_part000 check tid = { postIssued := false, earlyStatus := some 409 } ∧
    addTrack_server check tid = { postIssued := true, earlyStatus := none } := by
  refine ⟨?_, rfl⟩
  have hany : check.items.any (fun t => t == some tid) = true :=
    List.any_eq_true.mpr ⟨some tid, hmem, by simp⟩
  simp [addTrack_part000, hok, hany]

theorem addTrack_duplicate_handling_witness :
    addTrack_part000 { ok := true, items := [some "t1"] } "t1" =
      { postIssued := false, earlyStatus := some 409 } :=
  (addTrack_duplicate_handling { ok := true, items := [some "t1"] } "t1"
    rfl (by simp)).1

/-- Claim C3: for every sequence of sequential `getUserToken` calls in
which an initial prefix of calls finds the stored credential valid, the
next call is the first to find no valid credential and performs a
successful exchange, and every later call time stays below the
expiry-minus-skew boundary of the credential obtained by that first
exchange, exactly one network token exchange happens in the whole
sequence — on the first call that finds no valid credential — and every
other call returns the stored access token with no network call. -/
theorem userToken_single_exchange
    (st0 : UserState) (pre : List (Int × TokenResp)) (now0 : Int)
    (resp0 : TokenResp) (rest : List (Int × TokenResp)) (t : String) (e : Int)
    (hpre : ∀ p ∈ pre, userCredValid st0.accessToken st0.tokenExpiresAt p.1 = true)
    (hinv : userCredValid st0.accessToken st0.tokenExpiresAt now0 = false)
    (hrt : jsTruthyS st0.refreshToken = true)
    (hok : resp0.ok = true)
    (hat : resp0.access_token = some t) (ht : t ≠ "")
    (hei : resp0.expires_in = some e)
    (hn0 : 0 ≤ now0) (he : 0 < e)
    (hrest : ∀ p ∈ rest, p.1 < now0 + e * 1000 - 60000) :
    (runGetUserToken st0 (pre ++ (now0, resp0) :: rest)).1 =
      pre.map (fun _ => (Except.ok st0.accessToken, false)) ++
        (Except.ok (some t), true) ::
          rest.map (fun _ => (Except.ok (some t), false)) := by
  rw [runGetUserToken_append pre ((now0, resp0) :: rest) st0,
    runGetUserToken_all_valid pre st0 hpre]
  simp only
  rw [singleExchange_core st0 now0 resp0 rest t e hinv hrt hok hat ht hei hn0 he hrest]

theorem userToken_single_exchange_witness :
    (runGetUserToken
        { accessToken := some "init", tokenExpiresAt := some 100000,
          refreshToken := some "rt" }
        [(10000, { ok := false, access_token := none, expires_in := none,
                   refresh_token := none, error := none, error_description := none }),
         (50000, { ok := true, access_token := some "tok", expires_in := some 3600,
                   refresh_token := none, error := none, error_description := none }),
         (60000, { ok := false, access_token := none, expires_in := none,
                   refresh_token := none, error := none, error_description := none }),
         (70000, { ok := false, access_token := none, expires_in := none,
                   refresh_token := none, error := none, error_description := none })]).1 =
      [(Except.ok (some "init"), false), (Except.ok (some "tok"), true),
       (Except.ok (some "tok"), false), (Except.ok (some "tok"), false)] :=
  userToken_single_exchange
    { accessToken := some "init", tokenExpiresAt := some 100000,
      refreshToken := some "rt" }
    [(10000, { ok := false, access_token := none, expires_in := none,
               refresh_token := none, error := none, error_description := none })]
    50000
    { ok := true, access_token := some "tok", expires_in := some 3600,
      refresh_token := none, error := none, error_description := none }
    [(60000, { ok := false, access_token := none, expires_in := none,
               refresh_token := none, error := none, error_description := none }),
     (70000, { ok := false, access_token := none, expires_in := none,
               refresh_token := none, error := none, error_description := none })]
    "tok" 3600 (by decide) (by decide) (by decide) rfl rfl (by decide) rfl
    (by decide) (by decide) (by decide)

end SpotifyProxy
